import Mathlib

/-! Windows plugin registration shim of `context_free_router`.

Sources embedded here:

* `src/windows/context_free_router_plugin_c_api.cpp`: the C-linkage entry point
  `ContextFreeRouterPluginCApiRegisterWithRegistrar`;
* `src/windows/context_free_router_plugin.h`: the declaration of the class
  `ContextFreeRouterPlugin`.

The entry point is one statement made of three calls into code that lives
elsewhere.  It is embedded as a call tree (`Prog`): each node is one call, and
the continuation receives what the call returned.  A `Host` gives the meaning
of the three callees as state-passing functions that may fail (a C++ exception
leaving the callee); `Prog.run` threads the host state through the tree and
records every call that was made.
-/

namespace ContextFreeRouter

/-! ## Data model -/

/-- The handle type `FlutterDesktopPluginRegistrarRef` of the C interface: a raw
pointer, kept as its address. Address `0` is the null pointer. -/
structure FlutterDesktopPluginRegistrarRef where
  addr : Nat
deriving DecidableEq, Repr

/-- A pointer to `flutter::PluginRegistrarManager`, as returned by
`PluginRegistrarManager::GetInstance()`. -/
structure PluginRegistrarManager where
  addr : Nat
deriving DecidableEq, Repr

/-- A pointer to `flutter::PluginRegistrarWindows`, as returned by
`GetRegistrar<flutter::PluginRegistrarWindows>`. -/
structure PluginRegistrarWindows where
  addr : Nat
deriving DecidableEq, Repr

/-- One call made by the entry point, with the arguments it was made with. -/
inductive HostCall where
  | GetInstance
  | GetRegistrar (manager : PluginRegistrarManager)
      (registrar : FlutterDesktopPluginRegistrarRef)
  | RegisterWithRegistrar (registrar : PluginRegistrarWindows)
deriving DecidableEq, Repr

/-- Call trees over the three callees of the entry point. A node is a call; its
continuation is the rest of the computation, given the returned value. -/
inductive Prog (α : Type) where
  | done (a : α)
  | callGetInstance (k : PluginRegistrarManager → Prog α)
  | callGetRegistrar (manager : PluginRegistrarManager)
      (registrar : FlutterDesktopPluginRegistrarRef)
      (k : PluginRegistrarWindows → Prog α)
  | callRegisterWithRegistrar (registrar : PluginRegistrarWindows) (k : Prog α)

/-- The meaning of the three callees over a host state `W`; `E` is what a callee
that does not return normally raises.

* `GetInstance` is `flutter::PluginRegistrarManager::GetInstance()`;
* `GetRegistrar` is `PluginRegistrarManager::GetRegistrar<PluginRegistrarWindows>`;
* `RegisterWithRegistrar` is the static
  `ContextFreeRouterPlugin::RegisterWithRegistrar`, declared in
  `context_free_router_plugin.h`. -/
structure Host (W E : Type) where
  GetInstance : W → Except E (PluginRegistrarManager × W)
  GetRegistrar : PluginRegistrarManager → FlutterDesktopPluginRegistrarRef → W →
    Except E (PluginRegistrarWindows × W)
  RegisterWithRegistrar : PluginRegistrarWindows → W → Except E W

/-- Run a call tree against a host from state `w`. The first component is the
list of calls made, in order; the second is the outcome: the returned value and
final host state, or what the failing callee raised. -/
def Prog.run {W E α : Type} (h : Host W E) : Prog α → W → List HostCall × Except E (α × W)
  | .done a, w => ([], .ok (a, w))
  | .callGetInstance k, w =>
    match h.GetInstance w with
    | .error e => ([HostCall.GetInstance], .error e)
    | .ok (m, w1) =>
      let r := Prog.run h (k m) w1
      (HostCall.GetInstance :: r.1, r.2)
  | .callGetRegistrar m ref k, w =>
    match h.GetRegistrar m ref w with
    | .error e => ([HostCall.GetRegistrar m ref], .error e)
    | .ok (reg, w1) =>
      let r := Prog.run h (k reg) w1
      (HostCall.GetRegistrar m ref :: r.1, r.2)
  | .callRegisterWithRegistrar reg k, w =>
    match h.RegisterWithRegistrar reg w with
    | .error e => ([HostCall.RegisterWithRegistrar reg], .error e)
    | .ok w1 =>
      let r := Prog.run h k w1
      (HostCall.RegisterWithRegistrar reg :: r.1, r.2)

/-! ## The entry point (`context_free_router_plugin_c_api.cpp`, lines 7-12) -/

/-- The body of `ContextFreeRouterPluginCApiRegisterWithRegistrar`:
`ContextFreeRouterPlugin::RegisterWithRegistrar(
PluginRegistrarManager::GetInstance()->GetRegistrar<PluginRegistrarWindows>(registrar))`.
The argument expression is evaluated first (`GetInstance()`, then `GetRegistrar`
on its result with the handle as received), then the registration is called
with the value obtained; the function returns `void`. -/
def ContextFreeRouterPluginCApiRegisterWithRegistrar
    (registrar : FlutterDesktopPluginRegistrarRef) : Prog Unit :=
  .callGetInstance fun manager =>
    .callGetRegistrar manager registrar fun windowsRegistrar =>
      .callRegisterWithRegistrar windowsRegistrar (.done ())

/-- Whether a recorded call is a call of `ContextFreeRouterPlugin::RegisterWithRegistrar`. -/
def HostCall.isRegisterWithRegistrar : HostCall → Bool
  | .RegisterWithRegistrar _ => true
  | _ => false

/-! ## A small concrete host, used to evaluate the entry point -/

/-- State of the sample host: the manager's table from handle addresses to the
wrapper objects made for them, and the wrappers the plugin class was
registered with (most recent first). -/
structure SampleWorld where
  wrappers : List (Nat × Nat)
  registered : List Nat
deriving DecidableEq, Repr

/-- A host whose manager sits at address `4096`, hands out the wrapper recorded
for a handle (making one at `addr + 8192` on first use, null included), and
whose class registration notes the wrapper it was given. Nothing fails. -/
def sampleHost : Host SampleWorld String where
  GetInstance := fun w => .ok (⟨4096⟩, w)
  GetRegistrar := fun _ ref w =>
    match w.wrappers.lookup ref.addr with
    | some a => .ok (⟨a⟩, w)
    | none => .ok (⟨ref.addr + 8192⟩, { w with wrappers := (ref.addr, ref.addr + 8192) :: w.wrappers })
  RegisterWithRegistrar := fun reg w => .ok { w with registered := reg.addr :: w.registered }

/-- The sample host before any registration. -/
def sampleWorld : SampleWorld := { wrappers := [(7, 64)], registered := [] }

/-! ## The plugin class (`context_free_router_plugin.h`, lines 11-27) -/

/-- Modelled from the spec: the host base class `flutter::Plugin`, whose
declaration is in the host framework's headers and not in `src/`. The spec
(section 3) records no state anywhere in the plugin, so the base is taken to
contribute no data. -/
structure Plugin where
deriving DecidableEq, Repr

/-- The class `ContextFreeRouterPlugin : public flutter::Plugin`. Its
declaration lists a static member function, a constructor, a virtual
destructor, the deleted copy operations and `HandleMethodCall`; it lists no
data member, so the record has no field besides the base part. -/
structure ContextFreeRouterPlugin extends Plugin where
deriving DecidableEq, Repr

/-! ## Method channel, handler and class registration

The bodies of `ContextFreeRouterPlugin::RegisterWithRegistrar` and
`ContextFreeRouterPlugin::HandleMethodCall` are not in `src/` (the header only
declares them), and the host types they mention are declared in the host
framework. They are modelled from the specification below. -/

/-- Modelled from the spec: the host type `flutter::MethodCall<T>` (declared in
the host framework, not in `src/`): "a call identifier and arguments". -/
structure MethodCall (V : Type) where
  method_name : String
  arguments : V

/-- Modelled from the spec: the three kinds of result a handler can produce,
"success value, error, or not implemented" (section 4.1). The host type that
carries them is not in `src/`. -/
inductive Reply (V : Type) where
  | Success (value : V)
  | Error (code : String) (message : String)
  | NotImplemented

/-- Modelled from the spec: the host type `flutter::MethodResult<T>` (not in
`src/`), the result object a handler is given. It is kept as the list of
results delivered through it so far, oldest first. -/
structure MethodResult (V : Type) where
  replies : List (Reply V)

/-- Deliver one result through a result object. -/
def MethodResult.deliver {V : Type} (result : MethodResult V) (reply : Reply V) :
    MethodResult V :=
  { replies := result.replies ++ [reply] }

/-- Modelled from the spec: the case handling of the handler, which the given
source does not contain ("no actual case handling exists in the given
source"). It is a parameter: the recognised call identifiers, each with what it
answers for given arguments. -/
abbrev CaseTable (V : Type) := List (String × (V → Reply V))

/-- Modelled from the spec: the body of
`ContextFreeRouterPlugin::HandleMethodCall`, missing from `src/` (only its
declaration, header lines 23-26, is there). Per section 4.1 it "receives a call
identifier and arguments and must produce a result (success value, error, or
not implemented)", and per section 7 it reports "unimplemented" for any call it
does not recognise. -/
def ContextFreeRouterPlugin.HandleMethodCall {V : Type} (_self : ContextFreeRouterPlugin)
    (cases : CaseTable V) (method_call : MethodCall V) (result : MethodResult V) :
    MethodResult V :=
  match cases.lookup method_call.method_name with
  | some answer => result.deliver (answer method_call.arguments)
  | none => result.deliver Reply.NotImplemented

/-- Modelled from the spec: the part of the host's plugin registrar (glossary:
the "object through which native platform plugins attach method channels")
that the registration acts on: the handlers attached so far, by channel name,
most recent first. The host type is not in `src/`. -/
structure RegistrarState (V : Type) where
  channels : List (String × (MethodCall V → MethodResult V → MethodResult V))

/-- Modelled from the spec: how the host routes a call directed at a named
channel (host code, not in `src/`): to the handler attached under that name,
if there is one. -/
def RegistrarState.route {V : Type} (registrar : RegistrarState V) (channel : String)
    (method_call : MethodCall V) (result : MethodResult V) : Option (MethodResult V) :=
  match registrar.channels.lookup channel with
  | some handler => some (handler method_call result)
  | none => none

/-- Modelled from the spec: the body of the static
`ContextFreeRouterPlugin::RegisterWithRegistrar`, missing from `src/` (only its
declaration, header line 13, is there). Per section 4.1 it registers "a named
communication channel with the host's plugin registrar so that cross-language
calls directed at that channel are routed to a handler function". The channel
name is not given by the spec and is a parameter, as is the case table of the
handler. -/
def ContextFreeRouterPlugin.RegisterWithRegistrar {V : Type} (channel : String)
    (cases : CaseTable V) (registrar : RegistrarState V) : RegistrarState V :=
  { channels :=
      (channel, fun method_call result =>
        ContextFreeRouterPlugin.HandleMethodCall {} cases method_call result)
        :: registrar.channels }

/-- A case table with one recognised call, over string payloads. -/
def sampleCases : CaseTable String :=
  [("getPlatformVersion", fun _ => Reply.Success "Windows 10+")]

/-! ## Supporting lemmas -/

/-- The run of the entry point, once the two lookup calls have returned: the
three calls are recorded and the outcome is that of the class registration. -/
theorem run_entry_of_lookup {W E : Type} (h : Host W E)
    (r : FlutterDesktopPluginRegistrarRef) (w w1 w2 : W)
    (m : PluginRegistrarManager) (reg : PluginRegistrarWindows)
    (hI : h.GetInstance w = .ok (m, w1))
    (hG : h.GetRegistrar m r w1 = .ok (reg, w2)) :
    Prog.run h (ContextFreeRouterPluginCApiRegisterWithRegistrar r) w =
      ([HostCall.GetInstance, HostCall.GetRegistrar m r, HostCall.RegisterWithRegistrar reg],
        match h.RegisterWithRegistrar reg w2 with
        | .error e => .error e
        | .ok w3 => .ok ((), w3)) := by
  simp only [ContextFreeRouterPluginCApiRegisterWithRegistrar, Prog.run, hI, hG]
  cases h.RegisterWithRegistrar reg w2 <;> rfl

/-- A key that is not among the keys of an association list is not found. -/
theorem lookup_eq_none_of_not_mem {β : Type} (name : String) :
    ∀ (table : List (String × β)), name ∉ table.map Prod.fst → table.lookup name = none
  | [], _ => rfl
  | (k, b) :: rest, hn => by
    have hk : ¬ name = k := fun e => hn (by simp [e])
    have hrest : name ∉ rest.map Prod.fst := fun hm => hn (by simp at hm ⊢; exact Or.inr hm)
    have hb : (name == k) = false := by simpa using hk
    simp only [List.lookup, hb]
    exact lookup_eq_none_of_not_mem name rest hrest

/-! ## The claims -/

/-- C1. For every registrar handle `r`, the null handle included (the entry
point never inspects `r`), and every host in which the manager lookup returns:
the entry point makes exactly the calls `GetInstance()`, `GetRegistrar(r)` on
the manager obtained, and `ContextFreeRouterPlugin::RegisterWithRegistrar` on
the object `GetRegistrar` returned for that same `r`; the class registration is
called exactly once, and the outcome of the entry point is the outcome of that
call and nothing more. -/
theorem entry_forwards_registrar_once {W E : Type} (h : Host W E)
    (r : FlutterDesktopPluginRegistrarRef) (w w1 w2 : W)
    (m : PluginRegistrarManager) (reg : PluginRegistrarWindows)
    (hI : h.GetInstance w = .ok (m, w1))
    (hG : h.GetRegistrar m r w1 = .ok (reg, w2)) :
    (Prog.run h (ContextFreeRouterPluginCApiRegisterWithRegistrar r) w).1 =
        [HostCall.GetInstance, HostCall.GetRegistrar m r, HostCall.RegisterWithRegistrar reg]
      ∧ (Prog.run h (ContextFreeRouterPluginCApiRegisterWithRegistrar r) w).1.filter
          HostCall.isRegisterWithRegistrar = [HostCall.RegisterWithRegistrar reg]
      ∧ (Prog.run h (ContextFreeRouterPluginCApiRegisterWithRegistrar r) w).2 =
          (h.RegisterWithRegistrar reg w2).map fun w3 => ((), w3) := by
  rw [run_entry_of_lookup h r w w1 w2 m reg hI hG]
  refine ⟨rfl, rfl, ?_⟩
  cases h.RegisterWithRegistrar reg w2 <;> rfl

/-- Witness of C1 on the sample host, at the null handle. -/
theorem entry_forwards_registrar_once_witness :
    (Prog.run sampleHost (ContextFreeRouterPluginCApiRegisterWithRegistrar ⟨0⟩) sampleWorld).1 =
        [HostCall.GetInstance, HostCall.GetRegistrar ⟨4096⟩ ⟨0⟩,
          HostCall.RegisterWithRegistrar ⟨8192⟩]
      ∧ (Prog.run sampleHost (ContextFreeRouterPluginCApiRegisterWithRegistrar ⟨0⟩)
          sampleWorld).1.filter HostCall.isRegisterWithRegistrar =
        [HostCall.RegisterWithRegistrar ⟨8192⟩]
      ∧ (Prog.run sampleHost (ContextFreeRouterPluginCApiRegisterWithRegistrar ⟨0⟩)
          sampleWorld).2 =
        (sampleHost.RegisterWithRegistrar ⟨8192⟩
          { wrappers := [(0, 8192), (7, 64)], registered := [] }).map fun w3 => ((), w3) :=
  entry_forwards_registrar_once sampleHost ⟨0⟩ sampleWorld sampleWorld
    { wrappers := [(0, 8192), (7, 64)], registered := [] } ⟨4096⟩ ⟨8192⟩ rfl rfl

/-- C2. The entry point returns no value (its result type is `Unit`) and has no
failure of its own: whenever the registrar lookup for the handle
(`GetInstance()` followed by `GetRegistrar`) and the class registration
complete normally, the entry point completes normally, returning `()` in the
host state the registration left. -/
theorem entry_completes_when_host_does {W E : Type} (h : Host W E)
    (r : FlutterDesktopPluginRegistrarRef) (w w1 w2 w3 : W)
    (m : PluginRegistrarManager) (reg : PluginRegistrarWindows)
    (hI : h.GetInstance w = .ok (m, w1))
    (hG : h.GetRegistrar m r w1 = .ok (reg, w2))
    (hR : h.RegisterWithRegistrar reg w2 = .ok w3) :
    (Prog.run h (ContextFreeRouterPluginCApiRegisterWithRegistrar r) w).2 = .ok ((), w3) := by
  rw [run_entry_of_lookup h r w w1 w2 m reg hI hG, hR]

/-- Witness of C2 on the sample host, at a handle the manager already knows. -/
theorem entry_completes_when_host_does_witness :
    (Prog.run sampleHost (ContextFreeRouterPluginCApiRegisterWithRegistrar ⟨7⟩) sampleWorld).2 =
      .ok ((), { wrappers := [(7, 64)], registered := [64] }) :=
  entry_completes_when_host_does sampleHost ⟨7⟩ sampleWorld sampleWorld sampleWorld
    { wrappers := [(7, 64)], registered := [64] } ⟨4096⟩ ⟨64⟩ rfl rfl rfl

/-- C3. After `ContextFreeRouterPlugin::RegisterWithRegistrar` has registered
its named channel with a registrar, every call directed at that channel is
routed to `ContextFreeRouterPlugin::HandleMethodCall`: the host's routing finds
a handler, and what it produces is what `HandleMethodCall` produces for that
call and result object. -/
theorem registered_channel_routes_to_handler {V : Type} (channel : String)
    (cases : CaseTable V) (registrar : RegistrarState V) (plugin : ContextFreeRouterPlugin)
    (method_call : MethodCall V) (result : MethodResult V) :
    (ContextFreeRouterPlugin.RegisterWithRegistrar channel cases registrar).route channel
        method_call result =
      some (plugin.HandleMethodCall cases method_call result) := by
  simp [ContextFreeRouterPlugin.RegisterWithRegistrar, RegistrarState.route, List.lookup,
    ContextFreeRouterPlugin.HandleMethodCall]

/-- C4. For every method call, `HandleMethodCall` delivers exactly one result
through the result object it is given, and that result is a success value, an
error, or "not implemented". -/
theorem handler_delivers_one_result {V : Type} (plugin : ContextFreeRouterPlugin)
    (cases : CaseTable V) (method_call : MethodCall V) (result : MethodResult V) :
    ∃ reply : Reply V,
      (plugin.HandleMethodCall cases method_call result).replies = result.replies ++ [reply]
        ∧ ((∃ value, reply = Reply.Success value)
          ∨ (∃ code message, reply = Reply.Error code message)
          ∨ reply = Reply.NotImplemented) := by
  unfold ContextFreeRouterPlugin.HandleMethodCall
  cases hl : cases.lookup method_call.method_name with
  | none => exact ⟨Reply.NotImplemented, rfl, Or.inr (Or.inr rfl)⟩
  | some answer =>
    refine ⟨answer method_call.arguments, rfl, ?_⟩
    cases answer method_call.arguments with
    | Success value => exact Or.inl ⟨value, rfl⟩
    | Error code message => exact Or.inr (Or.inl ⟨code, message, rfl⟩)
    | NotImplemented => exact Or.inr (Or.inr rfl)

/-- C5. For every method call whose method name is not one the handler
recognises, `HandleMethodCall` delivers "not implemented", and nothing else,
through the result object. -/
theorem handler_unrecognised_not_implemented {V : Type} (plugin : ContextFreeRouterPlugin)
    (cases : CaseTable V) (method_call : MethodCall V) (result : MethodResult V)
    (hn : method_call.method_name ∉ cases.map Prod.fst) :
    (plugin.HandleMethodCall cases method_call result).replies =
      result.replies ++ [Reply.NotImplemented] := by
  unfold ContextFreeRouterPlugin.HandleMethodCall
  rw [lookup_eq_none_of_not_mem method_call.method_name cases hn]
  rfl

/-- Witness of C5: the call `push` against a handler that recognises only
`getPlatformVersion`, on a fresh result object. -/
theorem handler_unrecognised_not_implemented_witness :
    "push" ∉ sampleCases.map Prod.fst
      ∧ (ContextFreeRouterPlugin.HandleMethodCall {} sampleCases
          { method_name := "push", arguments := "/home" } { replies := [] }).replies =
        [Reply.NotImplemented] :=
  ⟨by decide,
    handler_unrecognised_not_implemented {} sampleCases
      { method_name := "push", arguments := "/home" } { replies := [] } (by decide)⟩

/-- C6. `ContextFreeRouterPlugin` has no data member, so an instance carries no
state: any two instances are equal; whatever a piece of code computes from an
instance is the same for every instance, and whatever it leaves as the instance
is the instance it started from (this covers any body of `HandleMethodCall`);
and every call the entry point makes is one of `GetInstance()`,
`GetRegistrar(r)` or the class registration on a registrar, that is, it acts on
the host's registrar manager and registrar only. -/
theorem plugin_carries_no_state :
    (∀ p q : ContextFreeRouterPlugin, p = q)
      ∧ (∀ (β : Type) (body : ContextFreeRouterPlugin → β × ContextFreeRouterPlugin)
          (p q : ContextFreeRouterPlugin), (body p).1 = (body q).1 ∧ (body p).2 = p)
      ∧ (∀ (W E : Type) (h : Host W E) (r : FlutterDesktopPluginRegistrarRef) (w : W),
          ∀ c ∈ (Prog.run h (ContextFreeRouterPluginCApiRegisterWithRegistrar r) w).1,
            c = HostCall.GetInstance ∨ (∃ m, c = HostCall.GetRegistrar m r)
              ∨ (∃ reg, c = HostCall.RegisterWithRegistrar reg)) := by
  have hsub : ∀ p q : ContextFreeRouterPlugin, p = q := by
    rintro ⟨⟨⟩⟩ ⟨⟨⟩⟩
    rfl
  refine ⟨hsub, fun β body p q => ⟨by rw [hsub p q], hsub _ _⟩, ?_⟩
  intro W E h r w c hc
  simp only [ContextFreeRouterPluginCApiRegisterWithRegistrar, Prog.run] at hc
  cases hI : h.GetInstance w with
  | error e =>
    simp only [hI, List.mem_singleton] at hc
    exact Or.inl hc
  | ok a =>
    obtain ⟨m, w1⟩ := a
    simp only [hI] at hc
    cases hG : h.GetRegistrar m r w1 with
    | error e =>
      simp only [hG, List.mem_cons, List.mem_singleton, List.not_mem_nil, or_false] at hc
      rcases hc with hc | hc
      · exact Or.inl hc
      · exact Or.inr (Or.inl ⟨m, hc⟩)
    | ok b =>
      obtain ⟨reg, w2⟩ := b
      simp only [hG] at hc
      cases hR : h.RegisterWithRegistrar reg w2 with
      | error e =>
        simp only [hR, List.mem_cons, List.mem_singleton, List.not_mem_nil, or_false] at hc
        rcases hc with hc | hc | hc
        · exact Or.inl hc
        · exact Or.inr (Or.inl ⟨m, hc⟩)
        · exact Or.inr (Or.inr ⟨reg, hc⟩)
      | ok w3 =>
        simp only [hR, List.mem_cons, List.mem_singleton, List.not_mem_nil, or_false] at hc
        rcases hc with hc | hc | hc
        · exact Or.inl hc
        · exact Or.inr (Or.inl ⟨m, hc⟩)
        · exact Or.inr (Or.inr ⟨reg, hc⟩)

end ContextFreeRouter
